import Mathlib

/-
Verification of the word-clock firmware (src/dcf77.rs, src/display.rs,
src/brightness.rs) against its natural-language specification.

The Rust code is shallowly embedded: machine integers become Nat with
explicit wrap-around where the Rust type would wrap, fallible operations
(panicking bit indexing, slice indexing) return Option, and the
type-indexed decoder states of dcf77.rs become one inductive type whose
constructors mirror the DCF77StateWrapper enum.
-/

namespace WordClock

/-! ## Embedding of src/dcf77.rs -/

/-- Error enum of dcf77.rs lines 15 to 25. -/
inductive Error where
  | StartNotFound
  | StateChangeError
  | ProtocolError
  | InvalidTime
  | InvalidDate
  | ParityErrorMinute
  | ParityErrorHour
  | ParityErrorDate
deriving DecidableEq

/-- The two u64 bit registers shared by every DCF77Parser state
(dcf77.rs lines 27 to 32; the timer is an input at each edge and is
therefore not part of the embedded state). -/
structure ParserData where
  current_bits : Nat
  next_bits : Nat
deriving DecidableEq

/-- DCF77StateWrapper (dcf77.rs lines 113 to 117): the tagged union of the
three type-indexed parser states.  AwaitingLow and AwaitingHigh carry the
usize bit index of their state struct. -/
inductive DCF77State where
  | Unknown : ParserData → DCF77State
  | AwaitingLow : ParserData → Nat → DCF77State
  | AwaitingHigh : ParserData → Nat → DCF77State
deriving DecidableEq

/-- BitField::set_bit on a u64 (used at dcf77.rs line 66).  The bit_field
crate asserts bit < 64 and panics otherwise; the panic is modelled as
none. -/
def setBit64 (b i : Nat) (v : Bool) : Option Nat :=
  if i < 64 then
    some (if v then (if b.testBit i then b else b + 2 ^ i)
          else (if b.testBit i then b - 2 ^ i else b))
  else none

/-- DCF77Parser::<AwaitingHigh>::update (dcf77.rs lines 64 to 76): write
the received bit at the current bit index of next_bits. -/
def writeBit (d : ParserData) (bit : Nat) (v : Bool) : Option ParserData :=
  (setBit64 d.next_bits bit v).map (fun nb => { d with next_bits := nb })

/-- DCF77Parser::start_minute (dcf77.rs lines 43 to 50): commit next_bits
as current_bits and clear next_bits. -/
def startMinute (d : ParserData) : ParserData :=
  ⟨d.next_bits, 0⟩

/-- DCF77StateWrapper::update (dcf77.rs lines 132 to 183).  Inputs are the
edge direction (rising_edge) and the elapsed ms returned by
timer.restart().  A result of none models a panic inside set_bit. -/
def stateUpdate : DCF77State → Bool → Nat → Option DCF77State
  | .Unknown d, true, _ => some (.Unknown d)
  | .AwaitingHigh d bit, true, t =>
      if t < 150 then (writeBit d bit false).map (fun d2 => .AwaitingLow d2 bit)
      else if t < 250 then (writeBit d bit true).map (fun d2 => .AwaitingLow d2 bit)
      else some (.Unknown ⟨d.current_bits, 0⟩)
  | .AwaitingLow d _, true, _ => some (.Unknown ⟨d.current_bits, 0⟩)
  | .Unknown d, false, t =>
      if 1800 < t ∧ t < 2200 then some (.AwaitingHigh (startMinute d) 0)
      else some (.Unknown d)
  | .AwaitingLow d bit, false, t =>
      if 1800 < t ∧ t < 2200 then some (.AwaitingHigh (startMinute d) 0)
      else some (.AwaitingHigh d (bit + 1))
  | .AwaitingHigh d _, false, _ => some (.Unknown ⟨d.current_bits, 0⟩)

/-- DCF77StateWrapper::current_bits (dcf77.rs lines 124 to 130). -/
def currentBits : DCF77State → Nat
  | .Unknown d => d.current_bits
  | .AwaitingLow d _ => d.current_bits
  | .AwaitingHigh d _ => d.current_bits

/-- DCF77StateWrapper::new (dcf77.rs lines 120 to 122). -/
def initialDecoder : DCF77State := .Unknown ⟨0, 0⟩

/-- Run the decoder over a list of classified edge events, stopping with
none as soon as one transition panics. -/
def runDecoder : DCF77State → List (Bool × Nat) → Option DCF77State
  | s, [] => some s
  | s, e :: es =>
      match stateUpdate s e.1 e.2 with
      | none => none
      | some s2 => runDecoder s2 es

/-- Recogniser for the AwaitingHigh variant (the state the spec calls
ExpectingHigh). -/
def isAwaitingHigh : DCF77State → Bool
  | .AwaitingHigh _ _ => true
  | _ => false

/-- Recogniser for the Unknown variant (the state the spec calls
InitialSearch). -/
def isUnknown : DCF77State → Bool
  | .Unknown _ => true
  | _ => false

/-- DCF77::update_state (dcf77.rs lines 201 to 211): derive the edge
direction from the pin level xor the inverted flag, run the transition,
and return Ok(()).  The Option layer models the panic path; Error is the
result error type of the Rust signature. -/
def update_state (s : DCF77State) (pinHigh inverted : Bool) (elapsed : Nat) :
    Option (Except Error Unit × DCF77State) :=
  (stateUpdate s (xor pinHigh inverted) elapsed).map (fun s2 => (Except.ok (), s2))

/-- u64::get_bits(lo..hi) (half-open) as used by extract_number. -/
def getBits (bits lo hi : Nat) : Nat :=
  bits / 2 ^ lo % 2 ^ (hi - lo)

/-- extract_number (dcf77.rs lines 222 to 226): units nibble at fst, tens
field of width tens starting one bit past the units nibble. -/
def extractNumber (bits fst tens : Nat) : Nat :=
  getBits bits fst (fst + 4) + getBits bits (fst + 5) (fst + 5 + tens) * 10

/-- Left xor-fold of the bits lo, lo+1, ..., lo+n-1, mirroring the fold in
DCF77::valid. -/
def parityFoldAux (bits lo : Nat) : Nat → Bool
  | 0 => false
  | n + 1 => xor (parityFoldAux bits lo n) (bits.testBit (lo + n))

/-- Even-parity xor fold over the inclusive bit range lo..=hi
(dcf77.rs lines 248 to 252). -/
def parityFold (bits lo hi : Nat) : Bool :=
  parityFoldAux bits lo (hi + 1 - lo)

/-- Result of DCF77::valid. -/
inductive VResult where
  | ok : VResult
  | err : Error → VResult
deriving DecidableEq

/-- DCF77::valid (dcf77.rs lines 241 to 260): the three parity ranges are
checked in order and the first odd fold yields its error. -/
def validCheck (bits : Nat) : VResult :=
  if parityFold bits 21 28 then .err .ParityErrorMinute
  else if parityFold bits 29 35 then .err .ParityErrorHour
  else if parityFold bits 36 58 then .err .ParityErrorDate
  else .ok

/-- The NaiveDateTime produced by DCF77::now on success. -/
structure DateTime where
  year : Nat
  month : Nat
  day : Nat
  hour : Nat
  minute : Nat
  second : Nat
deriving DecidableEq

/-- chrono leap-year rule (proleptic Gregorian). -/
def isLeapYear (y : Nat) : Bool :=
  (y % 4 == 0 && y % 100 != 0) || y % 400 == 0

/-- Days in a month per chrono. -/
def daysInMonth (y m : Nat) : Nat :=
  if m == 2 then (if isLeapYear y then 29 else 28)
  else if m == 4 || m == 6 || m == 9 || m == 11 then 30
  else 31

/-- NaiveDate::from_ymd_opt validity (for the small year values the
decoder can produce). -/
def validYmd (y m d : Nat) : Bool :=
  decide (1 ≤ m) && decide (m ≤ 12) && decide (1 ≤ d) && decide (d ≤ daysInMonth y m)

/-- NaiveDate::and_hms_opt validity. -/
def validHms (h m s : Nat) : Bool :=
  decide (h < 24) && decide (m < 60) && decide (s < 60)

/-- Result of DCF77::now: Ok, Err(WouldBlock), or Err(Other e). -/
inductive TimeResult where
  | ok : DateTime → TimeResult
  | wouldBlock : TimeResult
  | err : Error → TimeResult
deriving DecidableEq

/-- Body of DCF77::now after the WouldBlock check (dcf77.rs lines 220 to
239): validate parity, extract the BCD fields from curr_bits, then check
date and time validity. -/
def nowFrom (bits second : Nat) : TimeResult :=
  match validCheck bits with
  | .err e => .err e
  | .ok =>
    let minute := extractNumber bits 21 3
    let hour := extractNumber bits 29 2
    let day := extractNumber bits 36 2
    let month := extractNumber bits 45 1
    let year := extractNumber bits 50 4
    if validYmd year month day then
      if validHms hour minute second then
        .ok ⟨year, month, day, hour, minute, second⟩
      else .err .InvalidTime
    else .err .InvalidDate

/-- DCF77::now (dcf77.rs lines 213 to 239).  The live second counter is
the bit index of the non-Unknown states; now borrows the decoder
immutably, so it is a pure function of the state. -/
def now : DCF77State → TimeResult
  | .Unknown _ => .wouldBlock
  | .AwaitingHigh d bit => nowFrom d.current_bits bit
  | .AwaitingLow d bit => nowFrom d.current_bits bit

/-! ## Embedding of src/display.rs -/

/-- chrono NaiveTime as consumed by the display code: hour, minute and
second fields. -/
structure Time where
  hour : Nat
  minute : Nat
  second : Nat
deriving DecidableEq

/-- MainWord bit constants (display.rs lines 19 to 32). -/
def ES_IST : Nat := 0x01

def FUENF : Nat := 0x02

def ZEHN : Nat := 0x04

def ZWANZIG : Nat := 0x08

def DREI : Nat := 0x10

def VIERTEL : Nat := 0x20

def VOR : Nat := 0x40

def NACH : Nat := 0x80

def HALB : Nat := 0x100

def UHR : Nat := 0x200

/-- TimeState (display.rs lines 34 to 37): a MainWord mask plus the
advance-to-next-hour flag. -/
structure TimeState where
  main : Nat
  next_hour : Bool
deriving DecidableEq

/-- FIVE_MINUTE_STATE (display.rs lines 44 to 101): the twelve phrase
sets indexed by five-minute bucket. -/
def fiveMinuteState : List TimeState :=
  [⟨ES_IST ||| UHR, false⟩,
   ⟨FUENF ||| NACH, false⟩,
   ⟨ZEHN ||| NACH, false⟩,
   ⟨VIERTEL ||| NACH, false⟩,
   ⟨ZWANZIG ||| NACH, false⟩,
   ⟨FUENF ||| VOR ||| HALB, true⟩,
   ⟨ES_IST ||| HALB, true⟩,
   ⟨FUENF ||| NACH ||| HALB, true⟩,
   ⟨ZEHN ||| NACH ||| HALB, true⟩,
   ⟨ES_IST ||| DREI ||| VIERTEL, true⟩,
   ⟨ZEHN ||| VOR, true⟩,
   ⟨FUENF ||| VOR, true⟩]

/-- The phrase set selected by WordDisplay::set_time (display.rs line
371): FIVE_MINUTE_STATE is indexed by time.second() / 5.  none models the
panic of an out-of-bounds array index. -/
def selectedState (t : Time) : Option TimeState :=
  fiveMinuteState.get? (t.second / 5)

/-- The hour-word index computed by WordDisplay::set_time (display.rs
line 372): (time.second() + next_hour as u32) % 12. -/
def codeHourIndex (t : Time) : Option Nat :=
  (selectedState t).map (fun st => (t.second + (if st.next_hour then 1 else 0)) % 12)

/-- The hour-word index the specification asks for: the hour in 12-hour
form plus the advance flag of the selected phrase set, mod 12.  This
definition follows the words of the spec and of claim C1 and exists only
to be compared against codeHourIndex. -/
def claimHourIndex (t : Time) : Option Nat :=
  (selectedState t).map (fun st => (t.hour % 12 + (if st.next_hour then 1 else 0)) % 12)

/-- WordDisplay::needs_update (display.rs lines 365 to 368), a pure
function of the stored current time and the queried time. -/
def needs_update (current t : Time) : Bool :=
  (current.hour != t.hour) || (current.minute % 5 != t.second % 5)

/-- The update condition the specification describes: hour changed or
five-minute bucket (minute divided by 5) changed.  This definition
follows the words of the spec and of claim C2 and exists only to be
compared against needs_update. -/
def claimNeedsUpdate (t1 t2 : Time) : Bool :=
  (t1.hour != t2.hour) || (t1.minute / 5 != t2.minute / 5)

/-- update_hour_words (display.rs lines 185 to 193): pin i is driven high
for i different from the selected hour, low (active) for the selected
hour. -/
def hourEnables (hour : Nat) : List Bool :=
  (List.range 12).map (fun i => i != hour)

/-- MinuteDisplay::set_time (display.rs lines 416 to 421): the four
independent minute indicator pins; pin i is driven high iff
time.minute() % 5 + 1 < i. -/
def minuteSetTime (t : Time) : List Bool :=
  (List.range 4).map (fun i => decide (t.minute % 5 + 1 < i))

/-! ## Embedding of src/brightness.rs -/

/-- One observable side effect of a brightness ramp: a duty write to one
of the two PWM channels or a blocking sleep. -/
inductive RampEvent where
  | setWordsDuty : Nat → RampEvent
  | setMinutesDuty : Nat → RampEvent
  | sleepMs : Nat → RampEvent
deriving DecidableEq

/-- Wrapping u16 multiplication: the products words_current * (steps - i)
and words_current * i in dim_down and dim_up are u16 arithmetic and wrap
at 2^16 in a release build. -/
def u16Mul (a b : Nat) : Nat := a * b % 65536

/-- BrightnessControl::dim_down (brightness.rs lines 51 to 60): for i = 1
to 10 write current * (10 - i) / 10 to both channels and sleep 20 ms.
wc and mc are words_current and minutes_current, which the ramp reads but
never modifies. -/
def dimDownEvents (wc mc : Nat) : List RampEvent :=
  ((List.range 10).map (fun j =>
    [RampEvent.setWordsDuty (u16Mul wc (10 - (j + 1)) / 10),
     RampEvent.setMinutesDuty (u16Mul mc (10 - (j + 1)) / 10),
     RampEvent.sleepMs 20])).flatten

/-- BrightnessControl::dim_up (brightness.rs lines 62 to 69): for i = 1
to 10 write current * i / 10 to both channels and sleep 20 ms. -/
def dimUpEvents (wc mc : Nat) : List RampEvent :=
  ((List.range 10).map (fun j =>
    [RampEvent.setWordsDuty (u16Mul wc (j + 1) / 10),
     RampEvent.setMinutesDuty (u16Mul mc (j + 1) / 10),
     RampEvent.sleepMs 20])).flatten

/-- dim_down followed by dim_up, as called around a phrase change. -/
def roundTripEvents (wc mc : Nat) : List RampEvent :=
  dimDownEvents wc mc ++ dimUpEvents wc mc

/-- The duty held by the words channel after a list of ramp events (none
if the list never writes it). -/
def lastWordsDuty (evs : List RampEvent) : Option Nat :=
  evs.foldl (fun acc e => match e with | .setWordsDuty v => some v | _ => acc) none

/-- The duty held by the minutes channel after a list of ramp events. -/
def lastMinutesDuty (evs : List RampEvent) : Option Nat :=
  evs.foldl (fun acc e => match e with | .setMinutesDuty v => some v | _ => acc) none

/-- Number of duty writes to the words channel in a ramp. -/
def countWordsWrites (evs : List RampEvent) : Nat :=
  evs.countP (fun e => match e with | .setWordsDuty _ => true | _ => false)

/-- Number of duty writes to the minutes channel in a ramp. -/
def countMinutesWrites (evs : List RampEvent) : Nat :=
  evs.countP (fun e => match e with | .setMinutesDuty _ => true | _ => false)

/-- Number of 20 ms sleeps in a ramp. -/
def countSleeps20 (evs : List RampEvent) : Nat :=
  evs.countP (fun e => match e with | .sleepMs 20 => true | _ => false)

/-! ## Concrete frames and event sequences used by the claims -/

/-- A 59-bit frame that passes all three parity checks and decodes, under
the extraction layout of dcf77.rs, to minute 19 (units 9 at bits 21..24,
tens 1 at bit 26), hour 11, day 5, month 3 and year field 20; bits 25 and
44 pad the minute and date ranges to even parity. -/
def goodFrame : Nat :=
  2 ^ 21 + 2 ^ 24 + 2 ^ 25 + 2 ^ 26 + 2 ^ 29 + 2 ^ 34 + 2 ^ 36 + 2 ^ 38 +
    2 ^ 44 + 2 ^ 45 + 2 ^ 46 + 2 ^ 56

/-- The closest realization of the frame of claim C4: minute 19, hour 11,
day 5, month units 3 (bits 45, 46) and year field 21 (units bit 50, tens
bit 56), with even parity on all three ranges.  Because bit 50 is read
both as the month tens digit and as the lowest year units bit, the
extracted month is 13, not 3. -/
def badFrame : Nat :=
  2 ^ 21 + 2 ^ 24 + 2 ^ 25 + 2 ^ 26 + 2 ^ 29 + 2 ^ 34 + 2 ^ 36 + 2 ^ 38 +
    2 ^ 45 + 2 ^ 46 + 2 ^ 50 + 2 ^ 56

/-- An edge-event stream: one minute-boundary gap (falling edge after
2000 ms) followed by 65 ordinary seconds, each a 100 ms pulse (rising
edge classified as bit 0) and a 1000 ms gap (falling edge classified as a
second boundary), with no further minute boundary. -/
def panicEvents : List (Bool × Nat) :=
  (false, 2000) :: (List.replicate 65 [(true, 100), (false, 1000)]).flatten

/-! ## Helper lemmas -/

theorem testBit_xor_pow_self (b i : Nat) : (b ^^^ 2 ^ i).testBit i = !(b.testBit i) := by
  rw [Nat.testBit_xor, Nat.testBit_two_pow_self]
  cases b.testBit i <;> rfl

theorem testBit_xor_pow_ne (b i j : Nat) (h : i ≠ j) :
    (b ^^^ 2 ^ i).testBit j = b.testBit j := by
  rw [Nat.testBit_xor, Nat.testBit_two_pow_of_ne h]
  cases b.testBit j <;> rfl

theorem parityFoldAux_xor_out (b lo i : Nat) :
    ∀ n, (i < lo ∨ lo + n ≤ i) → parityFoldAux (b ^^^ 2 ^ i) lo n = parityFoldAux b lo n
  | 0, _ => rfl
  | n + 1, h => by
      have hne : i ≠ lo + n := by omega
      have hrec : i < lo ∨ lo + n ≤ i := by omega
      simp only [parityFoldAux]
      rw [parityFoldAux_xor_out b lo i n hrec, testBit_xor_pow_ne b i (lo + n) hne]

theorem parityFoldAux_xor_in (b lo i : Nat) :
    ∀ n, lo ≤ i → i < lo + n →
      parityFoldAux (b ^^^ 2 ^ i) lo n = !(parityFoldAux b lo n)
  | 0, _, h2 => absurd h2 (by omega)
  | n + 1, h1, h2 => by
      simp only [parityFoldAux]
      by_cases hc : i = lo + n
      · subst hc
        rw [parityFoldAux_xor_out b lo (lo + n) n (Or.inr (by omega)), testBit_xor_pow_self]
        cases parityFoldAux b lo n <;> cases b.testBit (lo + n) <;> rfl
      · have h2' : i < lo + n := by omega
        rw [parityFoldAux_xor_in b lo i n h1 h2', testBit_xor_pow_ne b i (lo + n) hc]
        cases parityFoldAux b lo n <;> cases b.testBit (lo + n) <;> rfl

theorem parityFold_xor_in (b lo hi i : Nat) (h1 : lo ≤ i) (h2 : i ≤ hi) :
    parityFold (b ^^^ 2 ^ i) lo hi = !(parityFold b lo hi) := by
  apply parityFoldAux_xor_in b lo i _ h1
  omega

theorem parityFold_xor_out (b lo hi i : Nat) (hlo : lo ≤ hi) (h : i < lo ∨ hi < i) :
    parityFold (b ^^^ 2 ^ i) lo hi = parityFold b lo hi := by
  apply parityFoldAux_xor_out
  omega

theorem validCheck_cases (bits : Nat) :
    validCheck bits = .ok ∨ validCheck bits = .err .ParityErrorMinute ∨
      validCheck bits = .err .ParityErrorHour ∨ validCheck bits = .err .ParityErrorDate := by
  unfold validCheck
  split
  · exact Or.inr (Or.inl rfl)
  · split
    · exact Or.inr (Or.inr (Or.inl rfl))
    · split
      · exact Or.inr (Or.inr (Or.inr rfl))
      · exact Or.inl rfl

theorem nowFrom_validCheck_err (bits sec : Nat) (e : Error)
    (h : validCheck bits = .err e) : nowFrom bits sec = .err e := by
  unfold nowFrom
  rw [h]

theorem nowFrom_minute_parity (bits sec : Nat) (h : parityFold bits 21 28 = true) :
    nowFrom bits sec = .err .ParityErrorMinute :=
  nowFrom_validCheck_err bits sec _ (by simp [validCheck, h])

theorem nowFrom_hour_parity (bits sec : Nat) (h1 : parityFold bits 21 28 = false)
    (h2 : parityFold bits 29 35 = true) :
    nowFrom bits sec = .err .ParityErrorHour :=
  nowFrom_validCheck_err bits sec _ (by simp [validCheck, h1, h2])

theorem nowFrom_date_parity (bits sec : Nat) (h1 : parityFold bits 21 28 = false)
    (h2 : parityFold bits 29 35 = false) (h3 : parityFold bits 36 58 = true) :
    nowFrom bits sec = .err .ParityErrorDate :=
  nowFrom_validCheck_err bits sec _ (by simp [validCheck, h1, h2, h3])

theorem nowFrom_shape (bits sec : Nat) :
    (∃ dt, nowFrom bits sec = .ok dt) ∨ nowFrom bits sec = .err .ParityErrorMinute ∨
      nowFrom bits sec = .err .ParityErrorHour ∨ nowFrom bits sec = .err .ParityErrorDate ∨
      nowFrom bits sec = .err .InvalidDate ∨ nowFrom bits sec = .err .InvalidTime := by
  rcases validCheck_cases bits with h | h | h | h
  · unfold nowFrom
    rw [h]
    dsimp only
    split
    · split
      · exact Or.inl ⟨_, rfl⟩
      · simp
    · simp
  · rw [nowFrom_validCheck_err bits sec _ h]; simp
  · rw [nowFrom_validCheck_err bits sec _ h]; simp
  · rw [nowFrom_validCheck_err bits sec _ h]; simp

/-! ## Claim theorems -/

/-- C1: the claim states that set_time selects the hour word with index
(hour in 12-hour form + advance_hour) mod 12, depending only on the hour
field and the advance flag.  The code (display.rs line 372) instead
computes (time.second() + next_hour) % 12.  At 10:25:00 the code selects
index 0 while the claimed formula gives 10, and moving to 10:25:03 (same
hour, same selected phrase set) changes the code's selection to 3, so the
selection depends on the second field. -/
theorem c1_hour_index_uses_seconds :
    codeHourIndex ⟨10, 25, 0⟩ = some 0 ∧ claimHourIndex ⟨10, 25, 0⟩ = some 10 ∧
      codeHourIndex ⟨10, 25, 3⟩ = some 3 ∧ claimHourIndex ⟨10, 25, 3⟩ = some 10 := by
  decide

/-- C2: the claim states that needs_update is true iff the hour or the
five-minute bucket (minute / 5) changed.  The code (display.rs lines 365
to 368) compares current.minute() % 5 against time.second() % 5, so
re-querying the very timestamp that was last rendered (12:01:00, same
hour, same bucket) already reports true, while the claimed condition is
false there. -/
theorem c2_needs_update_same_time :
    needs_update ⟨12, 1, 0⟩ ⟨12, 1, 0⟩ = true ∧
      claimNeedsUpdate ⟨12, 1, 0⟩ ⟨12, 1, 0⟩ = false := by
  decide

/-- C3: the claim states the decoder never panics no matter how many
second boundaries arrive without a minute boundary.  After one minute
boundary and 64 data-bit seconds the bit index reaches 64, and the next
data bit calls u64::set_bit(64), whose range assertion panics: running
the decoder over panicEvents aborts (none). -/
theorem c3_decoder_panics_on_long_frame :
    runDecoder initialDecoder panicEvents = none := by
  decide

/-- C6: the claim states that a minute-boundary event received in
ExpectingHigh moves the decoder to ExpectingHigh with second counter 0.
The code (dcf77.rs lines 177 to 180) sends every falling edge received in
AwaitingHigh, minute boundary included (elapsed 2000 ms), to Unknown;
next_bits is cleared and current_bits kept, but the resulting state is
the Unknown variant, not AwaitingHigh. -/
theorem c6_awaiting_high_minute_boundary_goes_unknown :
    stateUpdate (.AwaitingHigh ⟨5, 7⟩ 3) false 2000 = some (.Unknown ⟨5, 0⟩) ∧
      (stateUpdate (.AwaitingHigh ⟨5, 7⟩ 3) false 2000).map isAwaitingHigh = some false ∧
      (stateUpdate (.AwaitingHigh ⟨5, 7⟩ 3) false 2000).map isUnknown = some true := by
  decide

/-- C6 amended: on any falling edge received in AwaitingHigh the decoder
commits nothing (current_bits preserved), clears next_bits and moves to
the Unknown (InitialSearch) state. -/
theorem c6_awaiting_high_falling_resets_to_unknown (d : ParserData) (bit t : Nat) :
    stateUpdate (.AwaitingHigh d bit) false t = some (.Unknown ⟨d.current_bits, 0⟩) :=
  rfl

/-- C7: the claim states that a second boundary received in ExpectingLow
with the counter reaching 58 moves the decoder to an ExpectingStart
state.  The code has no such state: from AwaitingLow with bit 57, a
falling edge after 1000 ms yields AwaitingHigh with bit 58, the same
variant as for every other counter value. -/
theorem c7_no_expecting_start_state :
    stateUpdate (.AwaitingLow ⟨9, 33⟩ 57) false 1000 = some (.AwaitingHigh ⟨9, 33⟩ 58) ∧
      (stateUpdate (.AwaitingLow ⟨9, 33⟩ 57) false 1000).map isAwaitingHigh = some true := by
  decide

/-- C7 amended: a second-boundary event (falling edge with elapsed time
outside the 1800 to 2200 ms minute window) received in AwaitingLow always
increments the second counter and moves to AwaitingHigh, for every
counter value; no other state exists for the end-of-frame count. -/
theorem c7_second_boundary_increments (d : ParserData) (bit t : Nat)
    (h : ¬(1800 < t ∧ t < 2200)) :
    stateUpdate (.AwaitingLow d bit) false t = some (.AwaitingHigh d (bit + 1)) := by
  have hstep : stateUpdate (.AwaitingLow d bit) false t =
      if 1800 < t ∧ t < 2200 then some (.AwaitingHigh (startMinute d) 0)
      else some (.AwaitingHigh d (bit + 1)) := rfl
  rw [hstep, if_neg h]

/-- C7 amended, witness: from bit counter 57 a 1000 ms second boundary
yields AwaitingHigh with counter 58. -/
theorem c7_second_boundary_witness :
    stateUpdate (.AwaitingLow ⟨0, 0⟩ 57) false 1000 = some (.AwaitingHigh ⟨0, 0⟩ 58) :=
  c7_second_boundary_increments ⟨0, 0⟩ 57 1000 (by omega)

/-- C4: the claim's example frame cannot exist under the code's layout:
bit 50 is read both as the month tens digit (extract_number at offset 45
with one tens bit) and as the lowest bit of the year units nibble
(offset 50), so a frame whose year field is 21 (odd units) forces the
extracted month to exceed 12.  badFrame encodes minute 19, hour 11,
day 5, month units 3 and year 21 with even parity on all three ranges,
yet now() returns InvalidDate (extracted month 13) instead of succeeding
with 2021-03-05T11:19:42; moreover the year the code would hand to
NaiveDate is the raw two-digit field, never 2021. -/
theorem c4_example_frame_fails :
    parityFold badFrame 21 28 = false ∧ parityFold badFrame 29 35 = false ∧
      parityFold badFrame 36 58 = false ∧
      extractNumber badFrame 21 3 = 19 ∧ extractNumber badFrame 29 2 = 11 ∧
      extractNumber badFrame 36 2 = 5 ∧ getBits badFrame 45 49 = 3 ∧
      extractNumber badFrame 45 1 = 13 ∧ extractNumber badFrame 50 4 = 21 ∧
      now (.AwaitingLow ⟨badFrame, 0⟩ 42) = .err .InvalidDate ∧
      now (.AwaitingLow ⟨badFrame, 0⟩ 42) ≠ .ok ⟨2021, 3, 5, 11, 19, 42⟩ := by
  decide

/-- C4 amended: for every frame whose three parity ranges fold to even
and whose extracted fields form a calendar-valid date and time, now()
outside InitialSearch succeeds and returns exactly the extracted
{year, month, day, hour, minute} with the second taken from the live bit
counter; the year is the raw two-digit BCD value (not 2000 + year), and
the month and year fields share bit 50, which restricts the encodable
combinations. -/
theorem c4_round_trip_extracted (d : ParserData) (sec : Nat) (s : DCF77State)
    (hs : s = .AwaitingLow d sec ∨ s = .AwaitingHigh d sec)
    (h1 : parityFold d.current_bits 21 28 = false)
    (h2 : parityFold d.current_bits 29 35 = false)
    (h3 : parityFold d.current_bits 36 58 = false)
    (hymd : validYmd (extractNumber d.current_bits 50 4) (extractNumber d.current_bits 45 1)
      (extractNumber d.current_bits 36 2) = true)
    (hhms : validHms (extractNumber d.current_bits 29 2) (extractNumber d.current_bits 21 3)
      sec = true) :
    now s = .ok ⟨extractNumber d.current_bits 50 4, extractNumber d.current_bits 45 1,
      extractNumber d.current_bits 36 2, extractNumber d.current_bits 29 2,
      extractNumber d.current_bits 21 3, sec⟩ := by
  have hv : validCheck d.current_bits = .ok := by simp [validCheck, h1, h2, h3]
  have hnf : nowFrom d.current_bits sec = .ok ⟨extractNumber d.current_bits 50 4,
      extractNumber d.current_bits 45 1, extractNumber d.current_bits 36 2,
      extractNumber d.current_bits 29 2, extractNumber d.current_bits 21 3, sec⟩ := by
    unfold nowFrom
    rw [hv]
    dsimp only
    rw [if_pos hymd, if_pos hhms]
  rcases hs with h | h <;> subst h <;> exact hnf

/-- C4 amended, witness: goodFrame (minute 19, hour 11, 0020-03-05, even
parity everywhere) with live counter 42 decodes to 0020-03-05T11:19:42. -/
theorem c4_round_trip_witness :
    now (.AwaitingLow ⟨goodFrame, 0⟩ 42) = .ok ⟨20, 3, 5, 11, 19, 42⟩ := by
  have h := c4_round_trip_extracted ⟨goodFrame, 0⟩ 42 (.AwaitingLow ⟨goodFrame, 0⟩ 42)
    (Or.inl rfl) (by decide) (by decide) (by decide) (by decide) (by decide)
  rw [h]
  decide

/-- C5: a frame whose minute parity fold is odd yields ParityErrorMinute;
with the minute fold even an odd hour fold yields ParityErrorHour; with
both even an odd date fold yields ParityErrorDate (the checks run in
this order, so an odd fold always yields the error of the first odd
range).  Consequently, flipping any single bit of a fully passing frame
inside exactly one of the disjoint ranges 21..28, 29..35, 36..58
produces exactly the corresponding parity error.  now() takes the
decoder by immutable borrow, embedded here as a pure function of the
state, so the committed curr_bits is unchanged by the call. -/
theorem c5_parity_errors :
    (∀ (d : ParserData) (k : Nat),
      now (.AwaitingLow d k) = nowFrom d.current_bits k ∧
        now (.AwaitingHigh d k) = nowFrom d.current_bits k) ∧
    (∀ bits sec : Nat,
      (parityFold bits 21 28 = true → nowFrom bits sec = .err .ParityErrorMinute) ∧
        (parityFold bits 21 28 = false → parityFold bits 29 35 = true →
          nowFrom bits sec = .err .ParityErrorHour) ∧
        (parityFold bits 21 28 = false → parityFold bits 29 35 = false →
          parityFold bits 36 58 = true → nowFrom bits sec = .err .ParityErrorDate)) ∧
    (∀ bits sec i : Nat,
      parityFold bits 21 28 = false → parityFold bits 29 35 = false →
        parityFold bits 36 58 = false →
        ((21 ≤ i ∧ i ≤ 28) → nowFrom (bits ^^^ 2 ^ i) sec = .err .ParityErrorMinute) ∧
          ((29 ≤ i ∧ i ≤ 35) → nowFrom (bits ^^^ 2 ^ i) sec = .err .ParityErrorHour) ∧
          ((36 ≤ i ∧ i ≤ 58) → nowFrom (bits ^^^ 2 ^ i) sec = .err .ParityErrorDate)) := by
  refine ⟨fun d k => ⟨rfl, rfl⟩, fun bits sec => ⟨?_, ?_, ?_⟩, fun bits sec i h1 h2 h3 => ⟨?_, ?_, ?_⟩⟩
  · exact nowFrom_minute_parity bits sec
  · exact nowFrom_hour_parity bits sec
  · exact nowFrom_date_parity bits sec
  · intro hi
    apply nowFrom_minute_parity
    rw [parityFold_xor_in bits 21 28 i hi.1 hi.2, h1]
    rfl
  · intro hi
    apply nowFrom_hour_parity
    · rw [parityFold_xor_out bits 21 28 i (by omega) (by omega), h1]
    · rw [parityFold_xor_in bits 29 35 i hi.1 hi.2, h2]
      rfl
  · intro hi
    apply nowFrom_date_parity
    · rw [parityFold_xor_out bits 21 28 i (by omega) (by omega), h1]
    · rw [parityFold_xor_out bits 29 35 i (by omega) (by omega), h2]
    · rw [parityFold_xor_in bits 36 58 i hi.1 hi.2, h3]
      rfl

/-- C5 witness: flipping bit 30 (inside the hour range) of the fully
passing goodFrame makes now() report ParityErrorHour. -/
theorem c5_parity_errors_witness :
    nowFrom (goodFrame ^^^ 2 ^ 30) 42 = .err .ParityErrorHour :=
  ((c5_parity_errors.2.2 goodFrame 42 30 (by decide) (by decide) (by decide)).2.1
    (by omega))

/-- C8: the claim's round trip fails for large duties: the ramp arithmetic
is u16, so for a pre-ramp duty of 6554 the final dim_up write computes
6554 * 10 mod 2^16 = 4, divides by 10, and leaves the channel at duty 0
instead of 6554 (brightness.rs lines 62 to 69). -/
theorem c8_overflow_counterexample :
    lastWordsDuty (roundTripEvents 6554 6554) = some 0 ∧
      lastMinutesDuty (roundTripEvents 6554 6554) = some 0 ∧ (0 : Nat) ≠ 6554 := by
  decide

/-- C8 amended: dim_down and dim_up each perform exactly 10 duty-write
steps per channel with a 20 ms sleep after each step; dim_down ends with
both channels at duty 0; and dim_down followed by dim_up restores each
channel to its pre-ramp duty provided that duty times 10 stays below
2^16 (duty at most 6553) — beyond that the u16 multiplication wraps and
the round trip fails. -/
theorem c8_ramp_round_trip (wc mc : Nat) (hwc : wc * 10 < 65536) (hmc : mc * 10 < 65536) :
    countWordsWrites (dimDownEvents wc mc) = 10 ∧
      countMinutesWrites (dimDownEvents wc mc) = 10 ∧
      countSleeps20 (dimDownEvents wc mc) = 10 ∧
      countWordsWrites (dimUpEvents wc mc) = 10 ∧
      countMinutesWrites (dimUpEvents wc mc) = 10 ∧
      countSleeps20 (dimUpEvents wc mc) = 10 ∧
      lastWordsDuty (dimDownEvents wc mc) = some 0 ∧
      lastMinutesDuty (dimDownEvents wc mc) = some 0 ∧
      lastWordsDuty (roundTripEvents wc mc) = some wc ∧
      lastMinutesDuty (roundTripEvents wc mc) = some mc := by
  have hdiv : ∀ c : Nat, c * 10 < 65536 → u16Mul c 10 / 10 = c := by
    intro c hc
    unfold u16Mul
    rw [Nat.mod_eq_of_lt hc]
    exact Nat.mul_div_cancel c (by norm_num)
  refine ⟨rfl, rfl, rfl, rfl, rfl, rfl, ?_, ?_, ?_, ?_⟩
  · show some (u16Mul wc 0 / 10) = some 0
    simp [u16Mul]
  · show some (u16Mul mc 0 / 10) = some 0
    simp [u16Mul]
  · show some (u16Mul wc 10 / 10) = some wc
    rw [hdiv wc hwc]
  · show some (u16Mul mc 10 / 10) = some mc
    rw [hdiv mc hmc]

/-- C8 amended, witness: at pre-ramp duty 100 on both channels the round
trip restores duty 100. -/
theorem c8_ramp_round_trip_witness :
    lastWordsDuty (roundTripEvents 100 100) = some 100 :=
  (c8_ramp_round_trip 100 100 (by omega) (by omega)).2.2.2.2.2.2.2.2.1

/-- C9: MinuteDisplay::set_time drives indicator pin i (0-indexed) high
exactly when time.minute() % 5 + 1 < i, for each of the four pins,
matching the claim's formula literally (display.rs lines 416 to 421). -/
theorem c9_minute_lines (t : Time) (i : Nat) (h : i < 4) :
    (minuteSetTime t).get? i = some (decide (t.minute % 5 + 1 < i)) := by
  interval_cases i <;> rfl

/-- C9 witness: at minute 7 (7 % 5 + 1 = 3) pin 3 is inactive since
3 < 3 fails. -/
theorem c9_minute_lines_witness :
    (minuteSetTime ⟨10, 7, 0⟩).get? 3 = some false := by
  rw [c9_minute_lines ⟨10, 7, 0⟩ 3 (by omega)]
  decide

/-- C10: whenever update_state returns (the Option layer models the only
panic path, inside set_bit), its value is Ok(()); and now() never
produces the StartNotFound, StateChangeError or ProtocolError variants,
which no decoder operation constructs. -/
theorem c10_update_state_ok :
    (∀ (s : DCF77State) (ph inv : Bool) (el : Nat) (r : Except Error Unit) (s2 : DCF77State),
      update_state s ph inv el = some (r, s2) → r = Except.ok ()) ∧
    (∀ s : DCF77State,
      now s ≠ .err .StartNotFound ∧ now s ≠ .err .StateChangeError ∧
        now s ≠ .err .ProtocolError) := by
  constructor
  · intro s ph inv el r s2 h
    unfold update_state at h
    cases hs : stateUpdate s (xor ph inv) el with
    | none => rw [hs] at h; simp at h
    | some s3 =>
        rw [hs] at h
        simp only [Option.map_some', Option.some.injEq, Prod.mk.injEq] at h
        exact h.1.symm
  · intro s
    cases s with
    | Unknown d => refine ⟨?_, ?_, ?_⟩ <;> simp [now]
    | AwaitingLow d bit =>
        rcases nowFrom_shape d.current_bits bit with ⟨dt, h⟩ | h | h | h | h | h <;>
          refine ⟨?_, ?_, ?_⟩ <;> simp [now, h]
    | AwaitingHigh d bit =>
        rcases nowFrom_shape d.current_bits bit with ⟨dt, h⟩ | h | h | h | h | h <;>
          refine ⟨?_, ?_, ?_⟩ <;> simp [now, h]

/-- C10 witness: a concrete rising edge in the initial state returns
Ok(()), and now() on the initial state is not ProtocolError (it is
WouldBlock). -/
theorem c10_update_state_ok_witness :
    (Except.ok () : Except Error Unit) = Except.ok () ∧
      now initialDecoder ≠ TimeResult.err Error.ProtocolError :=
  ⟨c10_update_state_ok.1 initialDecoder true false 100 (Except.ok ()) (.Unknown ⟨0, 0⟩)
      rfl,
    (c10_update_state_ok.2 initialDecoder).2.2⟩

end WordClock
